import Mathlib

/-!
Verification development for the LifeOps backend (`backend/main.py`).

The Python source is shallowly embedded in Lean:
* floats are modelled as `ℚ` (and as `ℝ` where the code takes square roots),
* calendar dates are modelled via a parser `parse_yyyy_mm_dd` returning the
  proleptic-Gregorian day ordinal (the same ordinal Python's `date.toordinal`
  computes), so date comparison and `timedelta` arithmetic become integer
  comparison and arithmetic,
* functions that can raise exceptions return `Option`/`Except`,
* the wall clock (`date.today()`, `time.time()`) and the network (the body of
  the HTTP call to the Gemini endpoint) are explicit parameters,
* `round(x, n)` is modelled as exact round-half-to-even on rationals.
-/

/-! ## Rounding (Python `round(x, n)`: half-to-even) -/

/-- Round a rational to the nearest integer, ties to even (Python `round`). -/
def roundHalfEven (x : ℚ) : ℤ :=
  let f : ℤ := ⌊x⌋
  let r : ℚ := x - f
  if r < 1/2 then f
  else if 1/2 < r then f + 1
  else if f % 2 = 0 then f else f + 1

/-- Python `round(x, 2)` on a rational. -/
def round2 (x : ℚ) : ℚ := (roundHalfEven (x * 100) : ℚ) / 100

/-- Python `round(x, 3)` on a rational. -/
def round3 (x : ℚ) : ℚ := (roundHalfEven (x * 1000) : ℚ) / 1000

open Classical in
/-- Round a real to the nearest integer, ties to even (used only for the
correlation value, which involves a real square root). -/
noncomputable def roundHalfEvenR (x : ℝ) : ℤ :=
  let f : ℤ := ⌊x⌋
  let r : ℝ := x - f
  if r < 1/2 then f
  else if 1/2 < r then f + 1
  else if f % 2 = 0 then f else f + 1

/-- Python `round(x, 3)` on a real.  The result of rounding to 3 decimals is
an exact rational, which we keep as such so it can be printed. -/
noncomputable def round3R (x : ℝ) : ℚ := (roundHalfEvenR (x * 1000) : ℚ) / 1000

/-! ## Character/string helpers (kernel-reducible re-implementations of the
Python string operations used by the source) -/

/-- Whitespace test for Python `str.strip`. -/
def isPyWS (c : Char) : Bool :=
  c = ' ' || c = '\t' || c = '\n' || c = '\r'

/-- Python `s.strip()`. -/
def pyStrip (s : String) : String :=
  ⟨((s.data.dropWhile isPyWS).reverse.dropWhile isPyWS).reverse⟩

/-- Take the first `n` characters (Python `s[:n]`). -/
def strTake (n : ℕ) (s : String) : String := ⟨s.data.take n⟩

/-- Drop the first `n` characters (Python `s[n:]`). -/
def strDrop (n : ℕ) (s : String) : String := ⟨s.data.drop n⟩

/-- Python `s.lower()` (ASCII is all the source needs). -/
def strLower (s : String) : String := ⟨s.data.map Char.toLower⟩

/-- Check that `pre` is a prefix of `l`. -/
def chListIsPre : List Char → List Char → Bool
  | [], _ => true
  | _ :: _, [] => false
  | a :: as, b :: bs => a = b && chListIsPre as bs

/-- Python `s.startswith(pre)`. -/
def strStarts (pre s : String) : Bool := chListIsPre pre.data s.data

/-- Check that `nd` occurs as a contiguous sublist of `hay`. -/
def chListContains (nd : List Char) : List Char → Bool
  | [] => nd.isEmpty
  | c :: cs => chListIsPre nd (c :: cs) || chListContains nd cs

/-- Python `nd in s` (substring containment). -/
def strContains (s nd : String) : Bool := chListContains nd.data s.data

/-! ## Dates

The source parses dates with `datetime.strptime(s, "%Y-%m-%d").date()` and
then compares, subtracts and iterates them.  We model a parsed date by its
proleptic-Gregorian day ordinal (Python `date.toordinal`: 0001-01-01 is
day 1), so that all date arithmetic in the source becomes `ℤ` arithmetic. -/

/-- Gregorian leap-year test. -/
def isLeapYear (y : ℕ) : Bool :=
  y % 4 = 0 && (y % 100 ≠ 0 || y % 400 = 0)

/-- Days in month `m` of year `y` (month is 1-based). -/
def daysInMonth (y m : ℕ) : ℕ :=
  if m = 2 then (if isLeapYear y then 29 else 28)
  else if m = 4 || m = 6 || m = 9 || m = 11 then 30
  else 31

/-- Days in year `y` before the start of month `m` (1-based). -/
def daysBeforeMonth (y m : ℕ) : ℕ :=
  ((List.range (m - 1)).map (fun i => daysInMonth y (i + 1))).sum

/-- Proleptic-Gregorian ordinal of a calendar date, as in Python
`date(y, m, d).toordinal()` (0001-01-01 ↦ 1). -/
def dateOrdinal (y m d : ℕ) : ℤ :=
  (365 * (y - 1) + (y - 1) / 4 - (y - 1) / 100 + (y - 1) / 400
    + daysBeforeMonth y m + d : ℕ)

/-- Split a character list on the character `-` (keeping empty pieces). -/
def splitDash : List Char → List Char → List (List Char)
  | [], acc => [acc.reverse]
  | c :: cs, acc =>
    if c = '-' then acc.reverse :: splitDash cs [] else splitDash cs (c :: acc)

/-- Decimal value of a non-empty all-digit character list, if it is one. -/
def digitsVal : List Char → Option ℕ
  | [] => none
  | cs =>
    if cs.all Char.isDigit then
      some (cs.foldl (fun a c => 10 * a + (c.toNat - 48)) 0)
    else none

/-- Model of `_parse_yyyy_mm_dd` (`datetime.strptime(s, "%Y-%m-%d").date()`):
three dash-separated decimal fields (at most 4/2/2 digits as `%Y-%m-%d`
matches), forming a valid calendar date of year 1–9999; result is the day
ordinal.  Returns `none` where the Python call raises `ValueError`. -/
def parse_yyyy_mm_dd (s : String) : Option ℤ :=
  match splitDash s.data [] with
  | [ys, ms, ds] =>
    match digitsVal ys, digitsVal ms, digitsVal ds with
    | some y, some m, some d =>
      if ys.length ≤ 4 ∧ ms.length ≤ 2 ∧ ds.length ≤ 2
          ∧ 1 ≤ y ∧ y ≤ 9999 ∧ 1 ≤ m ∧ m ≤ 12
          ∧ 1 ≤ d ∧ d ≤ daysInMonth y m then
        some (dateOrdinal y m d)
      else none
    | _, _, _ => none
  | _ => none

/-! ## Data model -/

/-- A daily wellness log, as produced by `_row_to_log`. -/
structure LogEntry where
  date : String
  sleep : ℚ
  sleepQual : ℤ
  trained : Bool
  trainMin : ℤ
  trainType : String
  foodScore : ℤ
  water : Bool
  meals : Bool
  mood : ℤ
  anxiety : ℤ
  notes : String
  deriving DecidableEq, Repr

/-- The merged goals record (`_merge_goals` output shape). -/
structure Goals where
  sleepMin : ℚ
  workoutsPerWeek : ℤ
  foodTarget : ℤ
  anxietyMax : ℤ
  deriving DecidableEq, Repr

/-- The module constant `DEFAULT_GOALS`. -/
def DEFAULT_GOALS : Goals :=
  { sleepMin := 7, workoutsPerWeek := 3, foodTarget := 4, anxietyMax := 6 }

/-! ## Analytics: Pearson correlation (`_pearson_corr`) -/

/-- Sum of squared deviations from the mean (the quantity under the square
root in `_pearson_corr`; zero exactly when the series has zero variance). -/
def devSq (xs : List ℚ) : ℚ :=
  ((xs.map (fun x => (x - xs.sum / (xs.length : ℚ)) ^ 2)).sum)

open Classical in
/-- Model of `_pearson_corr`: `None` for unequal lengths, fewer than 4 points
or a zero denominator; otherwise the real-valued correlation coefficient
(`** 0.5` is modelled by `Real.sqrt`). -/
noncomputable def pearson_corr (xs ys : List ℚ) : Option ℝ :=
  if xs.length ≠ ys.length ∨ xs.length < 4 then none
  else
    let n : ℚ := xs.length
    let mx : ℚ := xs.sum / n
    let my : ℚ := ys.sum / n
    let num : ℚ := ((xs.zip ys).map (fun p => (p.1 - mx) * (p.2 - my))).sum
    let denx : ℝ := Real.sqrt ((xs.map (fun x => (x - mx) ^ 2)).sum : ℚ)
    let deny : ℝ := Real.sqrt ((ys.map (fun y => (y - my) ^ 2)).sum : ℚ)
    if denx = 0 ∨ deny = 0 then none
    else some ((num : ℝ) / (denx * deny))

/-! ## Analytics: window summary (`_summarize_window`) -/

/-- Trend deltas (the `trend` sub-dictionary; present only when `n ≥ 6`). -/
structure Trend where
  anxiety_delta : ℚ
  sleep_delta : ℚ
  mood_delta : ℚ
  deriving DecidableEq, Repr

/-- The statistics record returned by `_summarize_window`.  Window bounds are
day ordinals (the source stores their `isoformat()` strings). -/
structure Stats where
  n : ℕ
  window_start : Option ℤ
  window_end : Option ℤ
  missing_days_in_range : ℕ
  anxiety_limit : ℤ
  avg_sleep : ℚ
  avg_mood : ℚ
  avg_anxiety : ℚ
  avg_food : ℚ
  workouts : ℕ
  high_anxiety_days : ℕ
  peak_anxiety : ℤ
  peak_date : Option String
  train_effect : Option ℚ
  corr_sleep_vs_anxiety : Option ℚ
  trend : Option Trend

/-- Python `max(l)` on integers with `0` for the empty list
(`max(anx) if anx else 0`); ties keep the earlier element, as in Python. -/
def listMaxZ : List ℤ → ℤ
  | [] => 0
  | a :: as => as.foldl (fun m x => if m < x then x else m) a

/-- Python `l.index(a)` (first index of `a`; length if absent). -/
def idxOfZ (a : ℤ) : List ℤ → ℕ
  | [] => 0
  | b :: bs => if b = a then 0 else idxOfZ a bs + 1

/-- Parse the dates of all logs (the list comprehension
`[_parse_yyyy_mm_dd(l["date"]) for l in logs]`, which raises on a bad date). -/
def parseAllDates : List LogEntry → Option (List ℤ)
  | [] => some []
  | l :: ls =>
    match parse_yyyy_mm_dd l.date, parseAllDates ls with
    | some d, some ds => some (d :: ds)
    | _, _ => none

/-- Count of calendar days in `[s, e]` that carry no log (the `missing` loop). -/
def missingCount (dts : List ℤ) (s e : ℤ) : ℕ :=
  ((List.range (e + 1 - s).toNat).filter (fun i => !(dts.contains (s + i)))).length

/-- Mean of a projected field over a window slice (the inner `mean` helper of
the trend computation). -/
def meanBy (f : LogEntry → ℚ) (arr : List LogEntry) : ℚ :=
  (arr.map f).sum / (arr.length : ℚ)

/-- Projection used throughout `_summarize_window`: the anxiety series. -/
def anxOf (logs : List LogEntry) : List ℤ := logs.map (fun l => l.anxiety)

/-- Projection used throughout `_summarize_window`: the trained flags. -/
def trainedOf (logs : List LogEntry) : List Bool := logs.map (fun l => l.trained)

/-- The `anx_train` list: anxiety on training days
(`[a for a, t in zip(anx, trained) if t]`). -/
def anxTrainOf (logs : List LogEntry) : List ℤ :=
  (((anxOf logs).zip (trainedOf logs)).filter (fun p => p.2)).map (fun p => p.1)

/-- The `anx_not` list: anxiety on non-training days. -/
def anxNotOf (logs : List LogEntry) : List ℤ :=
  (((anxOf logs).zip (trainedOf logs)).filter (fun p => !p.2)).map (fun p => p.1)

/-- The `train_effect` statistic: mean anxiety on non-training days minus
mean anxiety on training days, rounded to 3 decimals; `None` when either
group is empty (`if anx_train and anx_not`). -/
def trainEffectOf (logs : List LogEntry) : Option ℚ :=
  if anxTrainOf logs ≠ [] ∧ anxNotOf logs ≠ [] then
    some (round3 (((anxNotOf logs).sum : ℚ) / ((anxNotOf logs).length : ℚ)
      - ((anxTrainOf logs).sum : ℚ) / ((anxTrainOf logs).length : ℚ)))
  else none

/-- The `trend` sub-record: present when the window has at least 6 entries;
mean of the last 3 entries minus mean of the preceding 3, per field. -/
def trendOf (logs : List LogEntry) : Option Trend :=
  if 6 ≤ logs.length then
    let last3 := logs.drop (logs.length - 3)
    let prev3 := (logs.drop (logs.length - 6)).take 3
    some { anxiety_delta := round2 (meanBy (fun l => (l.anxiety : ℚ)) last3
              - meanBy (fun l => (l.anxiety : ℚ)) prev3)
         , sleep_delta := round2 (meanBy (fun l => l.sleep) last3
              - meanBy (fun l => l.sleep) prev3)
         , mood_delta := round2 (meanBy (fun l => (l.mood : ℚ)) last3
              - meanBy (fun l => (l.mood : ℚ)) prev3) }
  else none

/-- The statistics record `_summarize_window` builds once its inputs are
known to be non-degenerate (`dts` are the parsed dates of `logs`). -/
noncomputable def mkStats (goals : Goals) (logs : List LogEntry) (dts : List ℤ) : Stats :=
  { n := logs.length
  , window_start := some (dts.foldl min dts.headI)
  , window_end := some (dts.foldl max dts.headI)
  , missing_days_in_range :=
      missingCount dts (dts.foldl min dts.headI) (dts.foldl max dts.headI)
  , anxiety_limit := goals.anxietyMax
  , avg_sleep := round2 ((logs.map (fun l => l.sleep)).sum / (logs.length : ℚ))
  , avg_mood := round2 (((logs.map (fun l => l.mood)).sum : ℚ) / (logs.length : ℚ))
  , avg_anxiety := round2 (((anxOf logs).sum : ℚ) / (logs.length : ℚ))
  , avg_food := round2 (((logs.map (fun l => l.foodScore)).sum : ℚ) / (logs.length : ℚ))
  , workouts := ((trainedOf logs).filter (fun t => t)).length
  , high_anxiety_days :=
      ((anxOf logs).filter (fun a => decide (goals.anxietyMax < a))).length
  , peak_anxiety := listMaxZ (anxOf logs)
  , peak_date := (logs.get? (idxOfZ (listMaxZ (anxOf logs)) (anxOf logs))).map
      (fun l => l.date)
  , train_effect := trainEffectOf logs
  , corr_sleep_vs_anxiety := (pearson_corr (logs.map (fun l => l.sleep))
      ((anxOf logs).map (fun a => (a : ℚ)))).map round3R
  , trend := trendOf logs }

/-- Model of `_summarize_window`.  Returns `none` where the Python function
raises: on an empty window (`ZeroDivisionError` in the averages) or on an
unparseable date (`ValueError` in the `dts` comprehension). -/
noncomputable def summarize_window (goals : Goals) (logs : List LogEntry) : Option Stats :=
  if logs.isEmpty then none
  else match parseAllDates logs with
  | none => none
  | some dts => some (mkStats goals logs dts)

/-! ## Window selection (`_select_window_from_logs`) -/

/-- Lexicographic order on character lists by code point (Python string
comparison). -/
def chListLe : List Char → List Char → Bool
  | [], _ => true
  | _ :: _, [] => false
  | a :: as, b :: bs =>
    if a.toNat < b.toNat then true
    else if b.toNat < a.toNat then false
    else chListLe as bs

/-- Python `a <= b` on strings. -/
def strLe (a b : String) : Bool := chListLe a.data b.data

/-- Stable ascending insertion of a log by its date string. -/
def insertLogAsc (x : LogEntry) : List LogEntry → List LogEntry
  | [] => [x]
  | y :: ys => if strLe x.date y.date then x :: y :: ys else y :: insertLogAsc x ys

/-- Stable sort by date string, ascending (Python
`sorted(base, key=lambda x: x["date"])`). -/
def sortLogsByDate : List LogEntry → List LogEntry
  | [] => []
  | x :: xs => insertLogAsc x (sortLogsByDate xs)

/-- Entries whose date parses and is on or before `today` (the
`past_or_today` partition; unparseable dates are skipped). -/
def pastOrToday (today : ℤ) (logs : List LogEntry) : List LogEntry :=
  logs.filter (fun l =>
    match parse_yyyy_mm_dd l.date with
    | some d => decide (d ≤ today)
    | none => false)

/-- Entries whose date parses and is after `today` (the `future` partition). -/
def futureLogs (today : ℤ) (logs : List LogEntry) : List LogEntry :=
  logs.filter (fun l =>
    match parse_yyyy_mm_dd l.date with
    | some d => decide (today < d)
    | none => false)

/-- The base list the window is drawn from: the past-or-today entries when
there are at least 3 of them, otherwise all logs. -/
def selectBase (today : ℤ) (logs : List LogEntry) : List LogEntry :=
  if 3 ≤ (pastOrToday today logs).length then pastOrToday today logs else logs

/-- The record returned by `_select_window_from_logs` (resolved dates as day
ordinals). -/
structure WindowSel where
  window : List LogEntry
  future_count : ℕ
  used_start_date : ℤ
  used_end_date : ℤ
  used_past_only : Bool
  deriving DecidableEq, Repr

/-- Model of `_select_window_from_logs`.  Returns `none` where the Python
function raises: empty input (`IndexError` on `base_sorted[-1]`) or an
unparseable date in the last position of the sorted base (`ValueError`). -/
def select_window_from_logs (today : ℤ) (logs_desc : List LogEntry) (days : ℤ) :
    Option WindowSel :=
  let base := selectBase today logs_desc
  let base_sorted := sortLogsByDate base
  match base_sorted.getLast? with
  | none => none
  | some lastLog =>
    match parse_yyyy_mm_dd lastLog.date with
    | none => none
    | some end_date =>
      let start_date := end_date - (days - 1)
      let window := base_sorted.filter (fun l =>
        match parse_yyyy_mm_dd l.date with
        | some d => decide (start_date ≤ d ∧ d ≤ end_date)
        | none => false)
      some
        { window := window
        , future_count := (futureLogs today logs_desc).length
        , used_start_date := start_date
        , used_end_date := end_date
        , used_past_only := 3 ≤ (pastOrToday today logs_desc).length }

/-! ## LLM gateway (Gemini client) -/

/-- A FastAPI `HTTPException` (status code and detail string). -/
structure HErr where
  status : ℕ
  detail : String
  deriving DecidableEq, Repr

/-- The already-extracted payload of one successful `generateContent` call
(the source's JSON parsing of candidates/parts is an opaque network step;
`text` is the joined candidate text). -/
structure GenResult where
  text : String
  block_reason : Option String
  finish_reason : Option String
  usage : Option String
  raw_head : String
  deriving DecidableEq, Repr

/-- Outcome of the underlying HTTP call of one attempt: success, an
`urllib` `HTTPError` with a status code and body, a transport-level
`URLError`, or any other exception (e.g. malformed JSON). -/
inductive NetOutcome where
  | ok (r : GenResult)
  | httpError (code : ℕ) (body : String)
  | urlError (msg : String)
  | exc (msg : String)
  deriving DecidableEq, Repr

/-- An exception escaping `_gemini_generate_once`, as discriminated by the
`except` clauses of `_gemini_generate`: a FastAPI `HTTPException` (which only
the generic `except Exception` clause catches), an `urllib` `HTTPError`, a
`URLError`, or any other exception. -/
inductive PyErr where
  | httpException (e : HErr)
  | httpError (code : ℕ) (body : String)
  | urlError (msg : String)
  | exc (msg : String)
  deriving DecidableEq, Repr

/-- Model of `_validate_gemini_model_name` (message strings ASCII-fied). -/
def validate_gemini_model_name (model : String) : Except HErr String :=
  let m := pyStrip model
  if m = "" then
    .error ⟨503, "GEMINI_MODEL vazio. Ex.: gemini-2.5-flash."⟩
  else
    let m := if strStarts "models/" m then pyStrip (strDrop 7 m) else m
    let low := strLower m
    if strContains low "llama" || strContains low "mixtral" then
      .error ⟨422, "GEMINI_MODEL invalido para Gemini: " ++ m
        ++ ". Use um modelo Gemini (ex.: gemini-2.5-flash)."⟩
    else if !strStarts "gemini-" low then
      .error ⟨422, "GEMINI_MODEL suspeito: " ++ m
        ++ ". Use um modelo que comece com gemini-."⟩
    else .ok m

/-- Model of `_gemini_generate_once`: missing API key and model-name
validation raise `HTTPException` before any network traffic; otherwise the
attempt's network outcome decides the result. -/
def gemini_generate_once (apiKey model : String) (net : NetOutcome) :
    Except PyErr GenResult :=
  if apiKey = "" then
    .error (.httpException ⟨503, "GEMINI_API_KEY nao configurada no .env."⟩)
  else
    match validate_gemini_model_name model with
    | .error e => .error (.httpException e)
    | .ok _ =>
      match net with
      | .ok r => .ok r
      | .httpError c b => .error (.httpError c b)
      | .urlError m => .error (.urlError m)
      | .exc m => .error (.exc m)

/-- Python `str(HTTPException)` (Starlette renders `f"{status_code}: {detail}"`). -/
def pyExcStr (e : HErr) : String := toString e.status ++ ": " ++ e.detail

/-- The `last_err` message each `except` branch of `_gemini_generate` records. -/
def geminiErrMsg : PyErr → String
  | .httpError c b => "Gemini HTTPError: " ++ toString c ++ " " ++ strTake 300 b
  | .urlError m => "Gemini URLError: " ++ strTake 200 m
  | .exc m => "Gemini erro inesperado: " ++ strTake 200 m
  | .httpException e => "Gemini erro inesperado: " ++ strTake 200 (pyExcStr e)

/-- Whether the `except` branch handling this error retries when budget
remains: `HTTPError` only for status 429/500/503; the `URLError` and generic
`Exception` branches always retry while attempts remain. -/
def retriablePy : PyErr → Bool
  | .httpError c _ => c = 429 || c = 500 || c = 503
  | _ => true

/-- Decidable equality of `Except` values with decidable components. -/
instance exceptDecEq {ε α : Type} [DecidableEq ε] [DecidableEq α] :
    DecidableEq (Except ε α) := fun a b =>
  match a, b with
  | .ok x, .ok y => decidable_of_iff (x = y) (by simp)
  | .error e, .error f => decidable_of_iff (e = f) (by simp)
  | .ok _, .error _ => isFalse (fun h => Except.noConfusion h)
  | .error _, .ok _ => isFalse (fun h => Except.noConfusion h)

/-- Observable trace of a `_gemini_generate` call: the final result (the
returned value or the raised `HTTPException`), the number of attempts made,
and the number of backoff sleeps performed. -/
structure GenTrace where
  result : Except HErr GenResult
  attempts : ℕ
  sleeps : ℕ
  deriving DecidableEq, Repr

/-- The retry loop of `_gemini_generate` (`for attempt in range(SNIX_RETRIES
+ 1)`), with attempt index `i` and remaining `fuel`; each non-final failed
attempt performs one backoff sleep before the next attempt. -/
def geminiRetryLoop (retries : ℕ) (apiKey model : String) (net : ℕ → NetOutcome) :
    ℕ → ℕ → GenTrace
  | 0, i => ⟨.error ⟨502, "Falha desconhecida no Gemini."⟩, i, i⟩
  | fuel + 1, i =>
    match gemini_generate_once apiKey model (net i) with
    | .ok r => ⟨.ok r, i + 1, i⟩
    | .error pe =>
      if !retriablePy pe || retries ≤ i then ⟨.error ⟨502, geminiErrMsg pe⟩, i + 1, i⟩
      else geminiRetryLoop retries apiKey model net fuel (i + 1)

/-- Model of `_gemini_generate` (`retries` is `SNIX_RETRIES`; `net i` is the
network outcome of attempt `i`). -/
def gemini_generate (retries : ℕ) (apiKey model : String) (net : ℕ → NetOutcome) :
    GenTrace :=
  geminiRetryLoop retries apiKey model net (retries + 1) 0

/-! ## Coach output, cache, fallback report -/

/-- The `llm_meta` entry of the stats dictionary: metadata of a successful
call, or the `offline` marker `{"error": "quota_exhausted"}`. -/
inductive LlmMeta where
  | fromCall (block_reason : Option String) (finish_reason : Option String)
      (usage : Option String)
  | quotaError
  deriving DecidableEq, Repr

/-- The `stats_out` dictionary: the `_summarize_window` record merged with
the selection metadata the orchestrator adds. -/
structure StatsOut where
  base : Stats
  sleepMin : ℚ
  window_start_selected : ℤ
  window_end_selected : ℤ
  used_past_only : Bool
  future_count : ℕ
  llm_meta : LlmMeta
  cache_key : String

/-- The `SnixCoachOut` response model. -/
structure SnixCoachOut where
  ok : Bool
  coach : String
  model : String
  days : ℤ
  n_logs_used : ℕ
  report : String
  stats : StatsOut

/-- The in-memory response cache `_snix_cache`: key to (timestamp, value). -/
def SnixCache := String → Option (ℚ × SnixCoachOut)

/-- Model of `_cache_get` at wall-clock time `now`: a missing key yields
`none`; an entry older than the TTL is evicted and yields `none`; otherwise
the stored value is returned.  The second component is the cache after the
lookup. -/
def cache_get (ttl : ℚ) (c : SnixCache) (now : ℚ) (key : String) :
    Option SnixCoachOut × SnixCache :=
  match c key with
  | none => (none, c)
  | some (ts, v) =>
    if ttl < now - ts then (none, fun k => if k = key then none else c k)
    else (some v, c)

/-- Model of `_cache_set` at wall-clock time `now`. -/
def cache_set (c : SnixCache) (now : ℚ) (key : String) (v : SnixCoachOut) :
    SnixCache :=
  fun k => if k = key then some (now, v) else c k

/-- Printed form of a rational statistic (stands in for Python float
formatting). -/
def ratStr (q : ℚ) : String := toString q

/-- Printed form of an optional string (`None` when absent, as in Python). -/
def optStr (o : Option String) : String := o.getD "None"

/-- Printed form of an optional window-bound ordinal (the source prints the
`isoformat()` date string; the ordinal is an injective stand-in). -/
def ordIsoStr : Option ℤ → String
  | some d => toString d
  | none => "None"

/-- Model of `_snix_fallback_report`: the deterministic offline report
(`"\n".join(lines)`, written as one concatenation; text ASCII-fied). -/
def snix_fallback_report (stats : StatsOut) (focus : String) : String :=
  let focus := pyStrip (if focus = "" then "ansiedade" else focus)
  "# Snix (modo offline) - foco: " ++ focus ++ "\n"
  ++ "\n"
  ++ "## Leitura objetiva\n"
  ++ "- Janela: " ++ ordIsoStr stats.base.window_start ++ " -> "
    ++ ordIsoStr stats.base.window_end ++ " (" ++ toString stats.base.n ++ " registros)\n"
  ++ "- Sono medio: " ++ ratStr stats.base.avg_sleep ++ "h (meta: "
    ++ ratStr stats.sleepMin ++ "h)\n"
  ++ "- Humor medio: " ++ ratStr stats.base.avg_mood ++ "/10\n"
  ++ "- Ansiedade media: " ++ ratStr stats.base.avg_anxiety ++ "/10 (limite: "
    ++ toString stats.base.anxiety_limit ++ ")\n"
  ++ "- Dias acima do limite: " ++ toString stats.base.high_anxiety_days ++ "\n"
  ++ "- Pico de ansiedade: " ++ toString stats.base.peak_anxiety ++ "/10 em "
    ++ optStr stats.base.peak_date ++ "\n"
  ++ "- Treinos na janela: " ++ toString stats.base.workouts ++ "\n"
  ++ (match stats.base.corr_sleep_vs_anxiety with
      | some c => "- Correlacao sono x ansiedade: " ++ ratStr c
          ++ " (sinal, nao causalidade)\n"
      | none => "")
  ++ (match stats.base.train_effect with
      | some t => "- Efeito treino (heuristico): " ++ ratStr t
          ++ " (positivo sugere treino associado a menor ansiedade)\n"
      | none => "")
  ++ "\n"
  ++ "## Plano minimo (7 dias)\n"
  ++ "- 1) Sono: manter horario fixo de dormir/acordar (30 min).\n"
  ++ "- 2) Treino: 10-20 min em dias alternados (caminhada/forca leve).\n"
  ++ "- 3) Registro: preencher todos os dias (reduz vies e melhora analise).\n"
  ++ "\n"
  ++ "## Protocolo rapido (1-5 min)\n"
  ++ "- Respiracao 4-6 (inspirar 4s, expirar 6s) por 2 min.\n"
  ++ "- Descarrego mental: anotar 3 preocupacoes + 1 proxima acao possivel (2 min).\n"
  ++ "- Alongamento leve de pescoco/ombros (1-2 min).\n"
  ++ "\n"
  ++ "## 3 metricas para amanha\n"
  ++ "- Horario de dormir e acordar (objetivo: consistencia).\n"
  ++ "- Ansiedade (0-10) antes de dormir.\n"
  ++ "- Treino (sim/nao + minutos).\n"
  ++ "\n"
  ++ "> Nota: Sem quota do Gemini, eu viro estatistico. Quando a cota voltar, eu viro coach de novo."

/-! ## Coach orchestrator (`snix_coach`, the `POST /coach/snix` handler) -/

/-- The request model `SnixCoachIn`. -/
structure SnixCoachIn where
  days : ℤ := 14
  max_items : ℤ := 60
  focus : String := "ansiedade"
  include_notes : Bool := true
  deriving DecidableEq, Repr

/-- The environment a coach request runs in: DB state (merged goals and all
stored logs), wall-clock date, and LLM configuration (env constants and the
network behaviour of each attempt). -/
structure CoachEnv where
  goals : Goals
  logs : List LogEntry
  today : ℤ
  ttl : ℚ
  retries : ℕ
  apiKey : String
  model : String
  net : ℕ → NetOutcome

/-- The values the handler computes before the cache lookup. -/
structure CoachCtx where
  days : ℤ
  focus : String
  include_notes : Bool
  sel : WindowSel
  stats : Stats
  cache_key : String

/-- The cache-key fingerprint
`f"days={days}|focus={focus}|notes={int(include_notes)}|end=...|n=..."`. -/
def coachKey (days : ℤ) (focus : String) (include_notes : Bool)
    (endDate : ℤ) (nWindow : ℕ) : String :=
  "days=" ++ toString days ++ "|focus=" ++ focus ++ "|notes="
    ++ (if include_notes then "1" else "0") ++ "|end=" ++ toString endDate
    ++ "|n=" ++ toString nWindow

/-- The handler's work up to (and excluding) the cache lookup: clamping,
loading the most recent logs, window selection, minimum-size check and
statistics.  The prompt strings built by `_build_snix_prompt` are opaque to
every claim; its statistics (third return value) are `summarize_window` on
the selected window, which is what `stats` records here.  The 500 errors
model uncaught exceptions. -/
noncomputable def coachPrep (env : CoachEnv) (p : SnixCoachIn) :
    Except HErr CoachCtx :=
  let days := max 3 (min 60 p.days)
  let max_items := max 10 (min 240 p.max_items)
  let focus := strTake 40 (pyStrip (if p.focus = "" then "ansiedade" else p.focus))
  let logs_desc := ((sortLogsByDate env.logs).reverse).take max_items.toNat
  if logs_desc.isEmpty then
    .error ⟨422, "Sem logs suficientes para analise do Snix."⟩
  else match select_window_from_logs env.today logs_desc days with
  | none => .error ⟨500, "ValueError em _select_window_from_logs"⟩
  | some sel =>
    if sel.window.length < 3 then
      .error ⟨422, "Poucos dados na janela (minimo 3 dias)."⟩
    else match summarize_window env.goals sel.window with
    | none => .error ⟨500, "Erro em _summarize_window"⟩
    | some stats =>
      .ok { days := days, focus := focus, include_notes := p.include_notes
          , sel := sel, stats := stats
          , cache_key := coachKey days focus p.include_notes
              sel.used_end_date sel.window.length }

/-- The `stats_out` dictionary built from the prep context. -/
def statsOutOf (env : CoachEnv) (ctx : CoachCtx) (meta : LlmMeta) : StatsOut :=
  { base := ctx.stats
  , sleepMin := env.goals.sleepMin
  , window_start_selected := ctx.sel.used_start_date
  , window_end_selected := ctx.sel.used_end_date
  , used_past_only := ctx.sel.used_past_only
  , future_count := ctx.sel.future_count
  , llm_meta := meta
  , cache_key := ctx.cache_key }

/-- The quota test of the `except HTTPException` handler
(`" 429 " in detail or "RESOURCE_EXHAUSTED" in detail or
"exceeded your current quota" in detail`). -/
def isQuotaDetail (detail : String) : Bool :=
  strContains detail " 429 " || strContains detail "RESOURCE_EXHAUSTED"
    || strContains detail "exceeded your current quota"

/-- The offline-fallback result the quota branch constructs. -/
def snixFallbackOut (env : CoachEnv) (ctx : CoachCtx) : SnixCoachOut :=
  let so := statsOutOf env ctx LlmMeta.quotaError
  { ok := true, coach := "Snix", model := "offline-fallback", days := ctx.days
  , n_logs_used := ctx.sel.window.length
  , report := snix_fallback_report so ctx.focus
  , stats := so }

/-- Report text when the API blocked the content (ASCII-fied). -/
def blockedReportMsg : String :=
  "Sem resposta do Snix: a API bloqueou o conteudo desta solicitacao.\nTente foco diferente (ex.: sono, rotina) ou desative include_notes."

/-- Report text when the model returned empty text (ASCII-fied). -/
def emptyReportMsg : String :=
  "Sem resposta do Snix (texto vazio).\nAumente a janela (ex.: 21 dias) ou reduza notas (include_notes=false)."

/-- Advisory note appended when future-dated entries were detected. -/
def futureNoteMsg : String :=
  "\n\nNota tecnica: detectei registros em datas futuras. A inferencia prioriza dados ate a data atual; o futuro e melhor como planejamento."

/-- The successful-call result: report post-processing (block reason, empty
text, future-dates note) and the success `stats_out`. -/
def snixSuccessOut (env : CoachEnv) (ctx : CoachCtx) (m : String) (r : GenResult) :
    SnixCoachOut :=
  let report0 := pyStrip r.text
  let report1 := if r.block_reason.isSome then blockedReportMsg else report0
  let report2 := if report1 = "" then emptyReportMsg else report1
  let report3 := if 0 < ctx.sel.future_count then report2 ++ futureNoteMsg else report2
  { ok := true, coach := "Snix", model := m, days := ctx.days
  , n_logs_used := ctx.sel.window.length, report := report3
  , stats := statsOutOf env ctx
      (LlmMeta.fromCall r.block_reason r.finish_reason r.usage) }

/-- The `try`/`except HTTPException` body after a cache miss, given the
gateway call's trace: on success, re-validate the model name and build the
success result; any `HTTPException` raised in the block is classified by the
quota test, yielding the offline fallback or re-raising. -/
def snixLlmPhase (env : CoachEnv) (ctx : CoachCtx) (tr : GenTrace) :
    Except HErr SnixCoachOut :=
  let raw : Except HErr SnixCoachOut :=
    match tr.result with
    | .error e => .error e
    | .ok r =>
      match validate_gemini_model_name env.model with
      | .error e => .error e
      | .ok m => .ok (snixSuccessOut env ctx m r)
  match raw with
  | .ok v => .ok v
  | .error e =>
    if isQuotaDetail e.detail then .ok (snixFallbackOut env ctx) else .error e

/-- Observable outcome of one `snix_coach` request: the HTTP result, the
cache afterwards, and how many LLM attempts were made (0 on a cache hit). -/
structure CoachStep where
  result : Except HErr SnixCoachOut
  cache : SnixCache
  llm_calls : ℕ

/-- Model of the `snix_coach` handler at wall-clock time `now`. -/
noncomputable def snix_coach (env : CoachEnv) (cache : SnixCache) (now : ℚ)
    (p : SnixCoachIn) : CoachStep :=
  match coachPrep env p with
  | .error e => ⟨.error e, cache, 0⟩
  | .ok ctx =>
    let looked := cache_get env.ttl cache now ctx.cache_key
    match looked.1 with
    | some v => ⟨.ok v, looked.2, 0⟩
    | none =>
      let tr := gemini_generate env.retries env.apiKey env.model env.net
      match snixLlmPhase env ctx tr with
      | .ok res => ⟨.ok res, cache_set looked.2 now ctx.cache_key res, tr.attempts⟩
      | .error e => ⟨.error e, looked.2, tr.attempts⟩

/-! ## Log store and upsert (`POST /logs`) -/

/-- The request model `LogIn`. -/
structure LogIn where
  date : String
  sleep : ℚ
  sleepQual : ℤ
  trained : Bool
  trainMin : ℤ := 0
  trainType : Option String := none
  foodScore : ℤ
  water : Bool
  meals : Bool
  mood : ℤ
  anxiety : ℤ
  notes : String := ""
  deriving DecidableEq, Repr

/-- A row of the `logs` table (booleans stored as integers, as in the
schema). -/
structure StoredLog where
  sleep : ℚ
  sleepQual : ℤ
  trained : ℤ
  trainMin : ℤ
  trainType : String
  foodScore : ℤ
  water : ℤ
  meals : ℤ
  mood : ℤ
  anxiety : ℤ
  notes : String
  deriving DecidableEq, Repr

/-- The `logs` table: rows keyed by their `date` primary key. -/
def LogStore := List (String × StoredLog)

/-- Primary-key lookup. -/
def storeGet : LogStore → String → Option StoredLog
  | [], _ => none
  | (k, v) :: rest, key => if k = key then some v else storeGet rest key

/-- The `INSERT ... ON CONFLICT(date) DO UPDATE` upsert on the keyed rows. -/
def storePut : LogStore → String → StoredLog → LogStore
  | [], key, v => [(key, v)]
  | (k, w) :: rest, key, v =>
    if k = key then (key, v) :: rest else (k, w) :: storePut rest key v

/-- Model of `_bool_to_int`. -/
def bool_to_int (v : Bool) : ℤ := if v then 1 else 0

/-- The date shape test of `upsert_log`/`delete_log`: length exactly 10 with
dashes at indices 4 and 7. -/
def dateShapeOk (s : String) : Bool :=
  decide (s.length = 10) && decide (s.data.get? 4 = some '-')
    && decide (s.data.get? 7 = some '-')

/-- Message of the date-format validation error. -/
def dateFormatMsg : String := "date deve estar no formato YYYY-MM-DD."

/-- Model of the `upsert_log` handler.  The first component is the HTTP
outcome, the second the log store afterwards (unchanged on every error
path). -/
def upsert_log (store : LogStore) (p : LogIn) : Except HErr Unit × LogStore :=
  if !dateShapeOk p.date then
    (.error ⟨422, dateFormatMsg⟩, store)
  else if p.sleep < 0 ∨ 24 < p.sleep then
    (.error ⟨422, "sleep deve estar entre 0 e 24."⟩, store)
  else if p.sleepQual < 1 ∨ 5 < p.sleepQual then
    (.error ⟨422, "sleepQual deve estar entre 1 e 5."⟩, store)
  else if p.foodScore < 1 ∨ 5 < p.foodScore then
    (.error ⟨422, "foodScore deve estar entre 1 e 5."⟩, store)
  else if p.mood < 0 ∨ 10 < p.mood then
    (.error ⟨422, "mood deve estar entre 0 e 10."⟩, store)
  else if p.anxiety < 0 ∨ 10 < p.anxiety then
    (.error ⟨422, "anxiety deve estar entre 0 e 10."⟩, store)
  else if p.trainMin < 0 ∨ 600 < p.trainMin then
    (.error ⟨422, "trainMin fora do intervalo esperado (0-600)."⟩, store)
  else
    (.ok (), storePut store p.date
      { sleep := p.sleep, sleepQual := p.sleepQual
      , trained := bool_to_int p.trained, trainMin := p.trainMin
      , trainType := p.trainType.getD "", foodScore := p.foodScore
      , water := bool_to_int p.water, meals := bool_to_int p.meals
      , mood := p.mood, anxiety := p.anxiety, notes := p.notes })

/-! ## General lemmas about the embedded operations -/

theorem summarize_window_some (g : Goals) (logs : List LogEntry) (dts : List ℤ)
    (h1 : logs.isEmpty = false) (h2 : parseAllDates logs = some dts) :
    summarize_window g logs = some (mkStats g logs dts) := by
  unfold summarize_window
  rw [h1, h2]
  rfl

theorem roundHalfEven_intCast (z : ℤ) : roundHalfEven (z : ℚ) = z := by
  unfold roundHalfEven
  norm_num

theorem round2_intCast (z : ℤ) : round2 (z : ℚ) = z := by
  unfold round2
  rw [show ((z : ℚ) * 100) = ((z * 100 : ℤ) : ℚ) by push_cast; ring, roundHalfEven_intCast]
  push_cast
  ring

theorem parseAllDates_ex (logs : List LogEntry)
    (h : ∀ l ∈ logs, (parse_yyyy_mm_dd l.date).isSome) :
    ∃ dts, parseAllDates logs = some dts := by
  induction logs with
  | nil => exact ⟨[], rfl⟩
  | cons a t ih =>
    obtain ⟨d, hd⟩ := Option.isSome_iff_exists.mp (h a (by simp))
    obtain ⟨ds, hds⟩ := ih (fun l hl => h l (by simp [hl]))
    exact ⟨d :: ds, by simp [parseAllDates, hd, hds]⟩

theorem summarize_window_isSome (g : Goals) (w : List LogEntry)
    (h1 : w ≠ []) (h2 : ∀ l ∈ w, (parse_yyyy_mm_dd l.date).isSome) :
    (summarize_window g w).isSome := by
  obtain ⟨dts, hdts⟩ := parseAllDates_ex w h2
  rw [summarize_window_some g w dts (by simpa [List.isEmpty_iff] using h1) hdts]
  rfl

theorem mem_insertLogAsc {x a : LogEntry} {l : List LogEntry} :
    a ∈ insertLogAsc x l ↔ a = x ∨ a ∈ l := by
  induction l with
  | nil => simp [insertLogAsc]
  | cons y ys ih =>
    simp only [insertLogAsc]
    split
    · simp [or_comm, or_left_comm]
    · simp [ih]
      tauto

theorem mem_sortLogsByDate {a : LogEntry} {l : List LogEntry} :
    a ∈ sortLogsByDate l ↔ a ∈ l := by
  induction l with
  | nil => simp [sortLogsByDate]
  | cons x xs ih => simp [sortLogsByDate, mem_insertLogAsc, ih]

theorem length_insertLogAsc (x : LogEntry) (l : List LogEntry) :
    (insertLogAsc x l).length = l.length + 1 := by
  induction l with
  | nil => rfl
  | cons y ys ih =>
    simp only [insertLogAsc]
    split
    · rfl
    · simp [ih]

theorem length_sortLogsByDate (l : List LogEntry) :
    (sortLogsByDate l).length = l.length := by
  induction l with
  | nil => rfl
  | cons x xs ih => simp [sortLogsByDate, length_insertLogAsc, ih]

theorem sortLogsByDate_ne_nil {l : List LogEntry} (h : l ≠ []) :
    sortLogsByDate l ≠ [] := by
  intro hcon
  apply h
  have := length_sortLogsByDate l
  rw [hcon] at this
  exact List.length_eq_zero.mp this.symm

theorem getLast?_mem : ∀ {l : List LogEntry} {a : LogEntry},
    l.getLast? = some a → a ∈ l
  | [], a => by simp
  | [x], a => by
    intro h
    simp [List.getLast?] at h
    simp [h]
  | x :: y :: t, a => by
    intro h
    rw [List.getLast?_cons_cons] at h
    simp [getLast?_mem h]

theorem pastOrToday_mem {today : ℤ} {logs : List LogEntry} {l : LogEntry} :
    l ∈ pastOrToday today logs ↔
      l ∈ logs ∧ ∃ d, parse_yyyy_mm_dd l.date = some d ∧ d ≤ today := by
  simp only [pastOrToday, List.mem_filter]
  refine and_congr_right fun _ => ?_
  rcases h : parse_yyyy_mm_dd l.date with _ | d
  · simp
  · simp [decide_eq_true_eq]

theorem selectBase_ne_nil {today : ℤ} {logs : List LogEntry} (h : logs ≠ []) :
    selectBase today logs ≠ [] := by
  unfold selectBase
  split
  · rename_i h3
    intro hcon
    rw [hcon] at h3
    simp at h3
  · exact h

theorem selectBase_subset {today : ℤ} {logs : List LogEntry} :
    ∀ l ∈ selectBase today logs, l ∈ logs := by
  intro l hl
  unfold selectBase at hl
  split at hl
  · exact (List.mem_filter.mp hl).1
  · exact hl

theorem select_window_eq_some (today days : ℤ) (logs : List LogEntry)
    (h : logs ≠ [])
    (hparse : ∀ l ∈ selectBase today logs, (parse_yyyy_mm_dd l.date).isSome) :
    ∃ sel, select_window_from_logs today logs days = some sel
      ∧ (∀ l ∈ sel.window, l ∈ selectBase today logs)
      ∧ sel.used_past_only = decide (3 ≤ (pastOrToday today logs).length) := by
  simp only [select_window_from_logs]
  have hne : sortLogsByDate (selectBase today logs) ≠ [] :=
    sortLogsByDate_ne_nil (selectBase_ne_nil h)
  obtain ⟨lastLog, hlast⟩ := Option.isSome_iff_exists.mp (List.getLast?_isSome.mpr hne)
  rw [hlast]
  dsimp only
  have hmem : lastLog ∈ selectBase today logs := mem_sortLogsByDate.mp (getLast?_mem hlast)
  obtain ⟨d0, hd0⟩ := Option.isSome_iff_exists.mp (hparse lastLog hmem)
  rw [hd0]
  refine ⟨_, rfl, ?_, rfl⟩
  intro l hl
  exact mem_sortLogsByDate.mp (List.mem_of_mem_filter hl)

/-! ## Concrete inputs used by the claims -/

/-- Builder for concrete example logs (remaining fields neutral, in range). -/
def exLog (d : String) (sl : ℚ) (ax : ℤ) (tr : Bool) : LogEntry :=
  { date := d, sleep := sl, sleepQual := 3, trained := tr, trainMin := 0
  , trainType := "", foodScore := 3, water := true, meals := true, mood := 5
  , anxiety := ax, notes := "" }

/-- The end-to-end example window: 7 consecutive days, anxiety
[4,5,8,7,3,9,6] and sleep [7,6,5,6,8,5,7]. -/
def c3logs : List LogEntry :=
  [ exLog "2025-03-01" 7 4 false, exLog "2025-03-02" 6 5 false
  , exLog "2025-03-03" 5 8 false, exLog "2025-03-04" 6 7 false
  , exLog "2025-03-05" 8 3 false, exLog "2025-03-06" 5 9 false
  , exLog "2025-03-07" 7 6 false ]

/-- Parsed dates of `c3logs`. -/
def c3dts : List ℤ :=
  [ dateOrdinal 2025 3 1, dateOrdinal 2025 3 2, dateOrdinal 2025 3 3
  , dateOrdinal 2025 3 4, dateOrdinal 2025 3 5, dateOrdinal 2025 3 6
  , dateOrdinal 2025 3 7 ]

/-- A log whose date string is not in `YYYY-MM-DD` shape. -/
def badDateLog : LogEntry := exLog "2024/01/01" 7 4 false

/-- A past-dated and a future-dated log around the demo date 2024-01-02. -/
def c4pastLog : LogEntry := exLog "2024-01-02" 7 4 false

/-- The future-dated demo log. -/
def c4futureLog : LogEntry := exLog "2024-01-03" 7 4 false

/-! ## Claim C1 -/

/-- C1: the claim says `_gemini_generate` fails immediately, with no retry
and no backoff sleep, when the API key is missing or the model name is
invalid, and that only 429/500/503 responses and transport errors are
retried.  The code violates this: the `HTTPException` raised by the key
check or by `_validate_gemini_model_name` is caught by the generic
`except Exception` clause and retried with backoff until the budget is
exhausted, ending in a 502 "erro inesperado".  With `SNIX_RETRIES = 3`, a
missing key means 4 attempts and 3 backoff sleeps regardless of the network
(first conjunct), an invalid model name (`llama-3`) likewise (second
conjunct); a non-retriable HTTP status (404) does fail on the first attempt
with no sleep (last conjuncts). -/
theorem gemini_generate_retries_config_errors :
    (∀ net : ℕ → NetOutcome,
      gemini_generate 3 "" "gemini-2.5-flash" net =
        ⟨.error ⟨502,
          "Gemini erro inesperado: 503: GEMINI_API_KEY nao configurada no .env."⟩,
          4, 3⟩)
    ∧ (∀ net : ℕ → NetOutcome,
        (gemini_generate 3 "key" "llama-3" net).attempts = 4
          ∧ (gemini_generate 3 "key" "llama-3" net).sleeps = 3)
    ∧ (gemini_generate 3 "key" "gemini-2.5-flash"
        (fun _ => .httpError 404 "not found")).attempts = 1
    ∧ (gemini_generate 3 "key" "gemini-2.5-flash"
        (fun _ => .httpError 404 "not found")).sleeps = 0 := by
  refine ⟨fun net => ?_, fun net => ⟨?_, ?_⟩, by decide, by decide⟩ <;> rfl

/-! ## Claim C3 -/

/-- C3 counterexample: the claim (and the spec example) state
`high_anxiety_days = 2` for the anxiety series [4,5,8,7,3,9,6] with limit 6;
the code counts all values strictly above 6, i.e. 8, 7 and 9 — three days,
not two. -/
theorem summarize_c3_counterexample :
    (summarize_window DEFAULT_GOALS c3logs).map (fun st => st.high_anxiety_days)
      ≠ some 2 := by
  rw [summarize_window_some DEFAULT_GOALS c3logs c3dts (by decide) (by decide)]
  decide

/-- C3 (amended): on the 7-day example window the statistics are
`avg_anxiety = 6`, `peak_anxiety = 9` first reached on the 6th date,
`high_anxiety_days = 3` (not 2: the values 8, 7, 9 all exceed the limit 6),
window size 7, and the trend record is present (n ≥ 6). -/
theorem summarize_c3_example :
    (summarize_window DEFAULT_GOALS c3logs).map
      (fun st => (st.avg_anxiety, st.peak_anxiety, st.peak_date,
        st.high_anxiety_days, st.n, st.trend.isSome))
      = some (6, 9, some "2025-03-06", 3, 7, true) := by
  rw [summarize_window_some DEFAULT_GOALS c3logs c3dts (by decide) (by decide)]
  simp only [Option.map_some', Option.some.injEq, Prod.mk.injEq]
  refine ⟨?_, by decide, by decide, by decide, by decide, by decide⟩
  show round2 (((anxOf c3logs).sum : ℚ) / (c3logs.length : ℚ)) = 6
  rw [show (anxOf c3logs).sum = 42 by decide, show c3logs.length = 7 by decide]
  rw [show (((42 : ℤ) : ℚ) / ((7 : ℕ) : ℚ)) = ((6 : ℤ) : ℚ) by norm_num]
  rw [round2_intCast]
  norm_num

/-! ## Claim C4 -/

/-- C4: with at least 3 past-or-today entries the selected window contains
only entries dated on or before `today` and `used_past_only` is set; with
fewer, the base is the whole input list, and a future-dated entry can then
appear in the window (demonstrated concretely with one past and one future
log around 2024-01-02). -/
theorem select_window_past_future_c4 :
    (∀ (today days : ℤ) (logs : List LogEntry),
      3 ≤ (pastOrToday today logs).length →
      ∃ sel, select_window_from_logs today logs days = some sel
        ∧ sel.used_past_only = true
        ∧ ∀ l ∈ sel.window, ∃ d, parse_yyyy_mm_dd l.date = some d ∧ d ≤ today)
    ∧ (∀ (today : ℤ) (logs : List LogEntry),
        (pastOrToday today logs).length < 3 → selectBase today logs = logs)
    ∧ (∃ sel, select_window_from_logs (dateOrdinal 2024 1 2) [c4pastLog, c4futureLog] 5
        = some sel
        ∧ c4futureLog ∈ sel.window
        ∧ parse_yyyy_mm_dd c4futureLog.date = some (dateOrdinal 2024 1 3)
        ∧ (dateOrdinal 2024 1 2 : ℤ) < dateOrdinal 2024 1 3) := by
  refine ⟨?_, ?_, ?_⟩
  · intro today days logs h3
    have hbase : selectBase today logs = pastOrToday today logs := by
      unfold selectBase
      rw [if_pos h3]
    have hne : logs ≠ [] := by
      intro hcon
      rw [hcon] at h3
      simp [pastOrToday] at h3
    obtain ⟨sel, hsel, hsub, hpo⟩ := select_window_eq_some today days logs hne
      (by
        rw [hbase]
        intro l hl
        obtain ⟨-, d, hd, -⟩ := pastOrToday_mem.mp hl
        simp [hd])
    refine ⟨sel, hsel, by rw [hpo]; simp [h3], ?_⟩
    intro l hl
    have hmem := hsub l hl
    rw [hbase] at hmem
    obtain ⟨-, d, hd, hdle⟩ := pastOrToday_mem.mp hmem
    exact ⟨d, hd, hdle⟩
  · intro today logs hlt
    unfold selectBase
    rw [if_neg (by omega)]
  · refine ⟨⟨[c4pastLog, c4futureLog], 1, dateOrdinal 2024 1 3 - 4,
      dateOrdinal 2024 1 3, false⟩, by decide, by decide, by decide, by decide⟩

/-- Witness for C4 at concrete inputs: three past-dated logs (so that the
first part applies with `today` = 2025-03-10), and a single-log list for the
second part. -/
theorem select_window_past_future_c4_witness :
    (∃ sel, select_window_from_logs (dateOrdinal 2025 3 10)
        [exLog "2025-03-01" 7 4 false, exLog "2025-03-02" 6 5 false,
         exLog "2025-03-03" 5 8 false] 14 = some sel
      ∧ sel.used_past_only = true
      ∧ ∀ l ∈ sel.window, ∃ d, parse_yyyy_mm_dd l.date = some d
          ∧ d ≤ dateOrdinal 2025 3 10)
    ∧ selectBase (dateOrdinal 2025 3 10) [exLog "2026-01-01" 7 4 false]
        = [exLog "2026-01-01" 7 4 false] := by
  exact ⟨select_window_past_future_c4.1 (dateOrdinal 2025 3 10) 14 _ (by decide),
    select_window_past_future_c4.2.1 (dateOrdinal 2025 3 10) _ (by decide)⟩

/-! ## Claim C8 -/

/-- C8: upserting a log whose date fails the `YYYY-MM-DD` shape test (such
as "2024/01/01") is rejected with the date-format validation error and the
log store is returned unchanged. -/
theorem upsert_log_malformed_date_c8 (store : LogStore) (p : LogIn)
    (h : dateShapeOk p.date = false) :
    (upsert_log store p).1 = .error ⟨422, dateFormatMsg⟩
      ∧ (upsert_log store p).2 = store := by
  unfold upsert_log
  rw [h]
  exact ⟨rfl, rfl⟩

/-- Stored row used by the C8 witness. -/
def c8row : StoredLog :=
  { sleep := 7, sleepQual := 3, trained := 0, trainMin := 0, trainType := ""
  , foodScore := 3, water := 1, meals := 1, mood := 5, anxiety := 4, notes := "" }

/-- Upsert payload with the spec's malformed date "2024/01/01". -/
def c8payload : LogIn :=
  { date := "2024/01/01", sleep := 7, sleepQual := 3, trained := false
  , foodScore := 3, water := true, meals := true, mood := 5, anxiety := 4 }

/-- Witness for C8: the spec's concrete malformed date "2024/01/01" on a
one-row store. -/
theorem upsert_log_malformed_date_c8_witness :
    (upsert_log [("2024-01-01", c8row)] c8payload).1 = .error ⟨422, dateFormatMsg⟩
      ∧ (upsert_log [("2024-01-01", c8row)] c8payload).2 = [("2024-01-01", c8row)] :=
  upsert_log_malformed_date_c8 _ _ (by decide)

/-! ## Claim C9 -/

/-- Upsert payload whose date passes the shape test but is not a calendar
date. -/
def c9payload : LogIn :=
  { date := "2024-13-40", sleep := 7, sleepQual := 3, trained := false
  , foodScore := 3, water := true, meals := true, mood := 5, anxiety := 4 }

/-- The row `c9payload` stores. -/
def c9row : StoredLog :=
  { sleep := 7, sleepQual := 3, trained := 0, trainMin := 0, trainType := ""
  , foodScore := 3, water := 1, meals := 1, mood := 5, anxiety := 4, notes := "" }

/-- C9: the upsert handler raises the date-format validation error exactly
when the shape test (length 10, dashes at indices 4 and 7) fails; the
shape-passing non-calendar date "2024-13-40" is accepted and stored under
that string key. -/
theorem upsert_log_shape_only_c9 :
    (∀ (store : LogStore) (p : LogIn),
      (upsert_log store p).1 = .error ⟨422, dateFormatMsg⟩
        ↔ dateShapeOk p.date = false)
    ∧ (upsert_log [] c9payload).1 = .ok ()
    ∧ storeGet (upsert_log [] c9payload).2 "2024-13-40" = some c9row := by
  refine ⟨fun store p => ⟨fun h => ?_, fun h => ?_⟩, by decide, by decide⟩
  · by_contra hd
    rw [Bool.not_eq_false] at hd
    unfold upsert_log at h
    rw [hd] at h
    simp only [Bool.not_true, Bool.false_eq_true, if_false] at h
    split_ifs at h <;> simp_all [dateFormatMsg]
  · unfold upsert_log
    rw [h]
    rfl

/-! ## Claim C10 -/

/-- C10 counterexample: the claim says `_select_window_from_logs` returns
without error on every non-empty input; a single log with the unparseable
date "2024/01/01" makes `past_or_today` empty (so the whole list is the
base) and the parse of the last sorted entry raises, modelled by `none`. -/
theorem select_window_c10_counterexample :
    [badDateLog] ≠ [] ∧ select_window_from_logs 739000 [badDateLog] 14 = none := by
  decide

/-- C10 (amended): for a non-empty input whose dates all parse, window
selection succeeds, every selected entry's date parses, and
`_summarize_window` succeeds on the (non-empty) selected window. -/
theorem select_then_summarize_total_c10 (today days : ℤ) (g : Goals)
    (logs : List LogEntry) (h1 : logs ≠ [])
    (h2 : ∀ l ∈ logs, (parse_yyyy_mm_dd l.date).isSome) :
    ∃ sel, select_window_from_logs today logs days = some sel
      ∧ (∀ l ∈ sel.window, (parse_yyyy_mm_dd l.date).isSome)
      ∧ (sel.window ≠ [] → (summarize_window g sel.window).isSome) := by
  obtain ⟨sel, hsel, hsub, -⟩ := select_window_eq_some today days logs h1
    (fun l hl => h2 l (selectBase_subset l hl))
  refine ⟨sel, hsel, fun l hl => h2 l (selectBase_subset l (hsub l hl)), fun hw => ?_⟩
  exact summarize_window_isSome g sel.window hw
    (fun l hl => h2 l (selectBase_subset l (hsub l hl)))

/-- Witness for C10 (amended) at a concrete one-log input. -/
theorem select_then_summarize_total_c10_witness :
    ∃ sel, select_window_from_logs 739000 [exLog "2025-03-01" 7 4 false] 14 = some sel
      ∧ (∀ l ∈ sel.window, (parse_yyyy_mm_dd l.date).isSome)
      ∧ (sel.window ≠ [] →
          (summarize_window DEFAULT_GOALS sel.window).isSome) :=
  select_then_summarize_total_c10 739000 14 DEFAULT_GOALS _ (by decide) (by decide)

/-! ## Claim C7 -/

theorem anxTrainOf_eq (logs : List LogEntry) :
    anxTrainOf logs = (logs.filter (fun l => l.trained)).map (fun l => l.anxiety) := by
  induction logs with
  | nil => rfl
  | cons a t ih =>
    simp only [anxTrainOf, anxOf, trainedOf, List.map_cons, List.zip_cons_cons,
      List.filter_cons] at ih ⊢
    cases ha : a.trained <;> simp [ha, ih, anxTrainOf, anxOf, trainedOf]

theorem anxNotOf_eq (logs : List LogEntry) :
    anxNotOf logs = (logs.filter (fun l => !l.trained)).map (fun l => l.anxiety) := by
  induction logs with
  | nil => rfl
  | cons a t ih =>
    simp only [anxNotOf, anxOf, trainedOf, List.map_cons, List.zip_cons_cons,
      List.filter_cons] at ih ⊢
    cases ha : a.trained <;> simp [ha, ih, anxNotOf, anxOf, trainedOf]

theorem sum_map_anxiety_cast (ls : List LogEntry) :
    (ls.map (fun l => (l.anxiety : ℚ))).sum
      = (((ls.map (fun l => l.anxiety)).sum : ℤ) : ℚ) := by
  induction ls with
  | nil => simp
  | cons a t ih => simp [ih]

/-- Mean anxiety of a group of logs, following the claim's words ("the mean
anxiety over non-training days minus the mean anxiety over training days");
used only to compare the code's `train_effect` against the claim. -/
def specAnxietyMean (ls : List LogEntry) : ℚ :=
  (ls.map (fun l => (l.anxiety : ℚ))).sum / (ls.length : ℚ)

/-- C7: `train_effect` is absent exactly when one of the two groups
(training / non-training days) is empty — in particular whenever all entries
share the same `trained` value — and otherwise equals the mean anxiety of
non-training days minus the mean anxiety of training days, rounded to three
decimals. -/
theorem summarize_train_effect_c7 (g : Goals) (logs : List LogEntry)
    (h1 : logs ≠ []) (h2 : ∀ l ∈ logs, (parse_yyyy_mm_dd l.date).isSome) :
    ∃ st, summarize_window g logs = some st
      ∧ (st.train_effect = none ↔
          logs.filter (fun l => l.trained) = []
            ∨ logs.filter (fun l => !l.trained) = [])
      ∧ (logs.filter (fun l => l.trained) ≠ [] →
          logs.filter (fun l => !l.trained) ≠ [] →
          st.train_effect = some (round3
            (specAnxietyMean (logs.filter (fun l => !l.trained))
              - specAnxietyMean (logs.filter (fun l => l.trained))))) := by
  obtain ⟨dts, hdts⟩ := parseAllDates_ex logs h2
  refine ⟨mkStats g logs dts,
    summarize_window_some g logs dts (by simpa [List.isEmpty_iff] using h1) hdts,
    ?_, ?_⟩
  · show trainEffectOf logs = none ↔ _
    unfold trainEffectOf
    rw [anxTrainOf_eq, anxNotOf_eq]
    by_cases hA : logs.filter (fun l => l.trained) = []
    · simp [hA]
    · by_cases hB : logs.filter (fun l => !l.trained) = []
      · simp [hB]
      · rw [if_pos ⟨by simp [hA], by simp [hB]⟩]
        simp [hA, hB]
  · intro hA hB
    show trainEffectOf logs = _
    unfold trainEffectOf
    rw [anxTrainOf_eq, anxNotOf_eq,
      if_pos ⟨by simp [hA], by simp [hB]⟩]
    unfold specAnxietyMean
    rw [sum_map_anxiety_cast, sum_map_anxiety_cast]
    simp [List.length_map]

/-- Witness for C7 at a concrete three-log window with mixed `trained`. -/
theorem summarize_train_effect_c7_witness :
    ∃ st, summarize_window DEFAULT_GOALS
        [exLog "2025-03-01" 7 4 true, exLog "2025-03-02" 6 5 false,
         exLog "2025-03-03" 5 8 false] = some st
      ∧ (st.train_effect = none ↔
          [exLog "2025-03-01" 7 4 true, exLog "2025-03-02" 6 5 false,
           exLog "2025-03-03" 5 8 false].filter (fun l => l.trained) = []
            ∨ [exLog "2025-03-01" 7 4 true, exLog "2025-03-02" 6 5 false,
               exLog "2025-03-03" 5 8 false].filter (fun l => !l.trained) = [])
      ∧ ([exLog "2025-03-01" 7 4 true, exLog "2025-03-02" 6 5 false,
          exLog "2025-03-03" 5 8 false].filter (fun l => l.trained) ≠ [] →
          [exLog "2025-03-01" 7 4 true, exLog "2025-03-02" 6 5 false,
           exLog "2025-03-03" 5 8 false].filter (fun l => !l.trained) ≠ [] →
          st.train_effect = some (round3
            (specAnxietyMean ([exLog "2025-03-01" 7 4 true,
                exLog "2025-03-02" 6 5 false,
                exLog "2025-03-03" 5 8 false].filter (fun l => !l.trained))
              - specAnxietyMean ([exLog "2025-03-01" 7 4 true,
                  exLog "2025-03-02" 6 5 false,
                  exLog "2025-03-03" 5 8 false].filter (fun l => l.trained))))) :=
  summarize_train_effect_c7 DEFAULT_GOALS _ (by decide) (by decide)

/-! ## Claim C5 -/

/-- A series is constant when all of its entries coincide. -/
def isConst (xs : List ℚ) : Prop := ∀ x ∈ xs, ∀ y ∈ xs, x = y

instance isConstDecidable (xs : List ℚ) : Decidable (isConst xs) := by
  unfold isConst
  infer_instance

theorem sum_sq_list_nonneg (f : ℚ → ℚ) (xs : List ℚ) :
    0 ≤ (xs.map (fun x => (f x) ^ 2)).sum := by
  apply List.sum_nonneg
  intro a ha
  obtain ⟨x, -, rfl⟩ := List.mem_map.mp ha
  exact sq_nonneg _

theorem all_zero_of_sum_zero : ∀ {l : List ℚ},
    (∀ x ∈ l, 0 ≤ x) → l.sum = 0 → ∀ x ∈ l, x = 0 := by
  intro l
  induction l with
  | nil => simp
  | cons a t ih =>
    intro hpos hsum x hx
    have ha : 0 ≤ a := hpos a (by simp)
    have ht : 0 ≤ t.sum := List.sum_nonneg (fun y hy => hpos y (by simp [hy]))
    rw [List.sum_cons] at hsum
    have ha0 : a = 0 := by linarith
    have hts : t.sum = 0 := by linarith
    rcases List.mem_cons.mp hx with rfl | hx
    · exact ha0
    · exact ih (fun y hy => hpos y (by simp [hy])) hts x hx

theorem devSq_pos (xs : List ℚ) (h : ¬ isConst xs) : 0 < devSq xs := by
  rcases lt_or_eq_of_le (sum_sq_list_nonneg (fun x => x - xs.sum / (xs.length : ℚ)) xs) with hlt | heq
  · exact hlt
  · exfalso
    apply h
    intro x hx y hy
    have hall : ∀ x ∈ xs.map (fun x => (x - xs.sum / (xs.length : ℚ)) ^ 2), x = 0 :=
      all_zero_of_sum_zero
        (fun a ha => by
          obtain ⟨z, -, rfl⟩ := List.mem_map.mp ha
          exact sq_nonneg _)
        heq.symm
    have hx0 := hall _ (List.mem_map.mpr ⟨x, hx, rfl⟩)
    have hy0 := hall _ (List.mem_map.mpr ⟨y, hy, rfl⟩)
    have hx1 : x = xs.sum / (xs.length : ℚ) := by
      have := (pow_eq_zero_iff (by norm_num : (2 : ℕ) ≠ 0)).mp hx0
      linarith [sub_eq_zero.mp this]
    have hy1 : y = xs.sum / (xs.length : ℚ) := by
      have := (pow_eq_zero_iff (by norm_num : (2 : ℕ) ≠ 0)).mp hy0
      linarith [sub_eq_zero.mp this]
    rw [hx1, hy1]

theorem list_cauchy_schwarz (l : List (ℚ × ℚ)) :
    ((l.map (fun p => p.1 * p.2)).sum) ^ 2
      ≤ (l.map (fun p => p.1 ^ 2)).sum * (l.map (fun p => p.2 ^ 2)).sum := by
  induction l with
  | nil => simp
  | cons p t ih =>
    obtain ⟨a, b⟩ := p
    simp only [List.map_cons, List.sum_cons]
    have hA : 0 ≤ (t.map (fun p => p.1 ^ 2)).sum := by
      apply List.sum_nonneg
      intro x hx
      obtain ⟨q, -, rfl⟩ := List.mem_map.mp hx
      exact sq_nonneg _
    have hB : 0 ≤ (t.map (fun p => p.2 ^ 2)).sum := by
      apply List.sum_nonneg
      intro x hx
      obtain ⟨q, -, rfl⟩ := List.mem_map.mp hx
      exact sq_nonneg _
    rcases eq_or_lt_of_le hB with hB0 | hBpos
    · have hS : (t.map (fun p => p.1 * p.2)).sum ^ 2 ≤ 0 := by
        calc (t.map (fun p => p.1 * p.2)).sum ^ 2
            ≤ (t.map (fun p => p.1 ^ 2)).sum * (t.map (fun p => p.2 ^ 2)).sum := ih
          _ = 0 := by rw [← hB0, mul_zero]
      have hS0 : (t.map (fun p => p.1 * p.2)).sum = 0 := by
        nlinarith [sq_nonneg ((t.map (fun p => p.1 * p.2)).sum)]
      rw [hS0, ← hB0]
      nlinarith [mul_nonneg hA (sq_nonneg b), sq_nonneg (a * b)]
    · nlinarith [sq_nonneg (a * (t.map (fun p => p.2 ^ 2)).sum
          - b * (t.map (fun p => p.1 * p.2)).sum),
        mul_nonneg (sq_nonneg b) (sub_nonneg.2 ih),
        mul_nonneg (le_of_lt hBpos) (sub_nonneg.2 ih)]

theorem zip_map_fst_sum (f : ℚ → ℚ) : ∀ (xs ys : List ℚ), xs.length ≤ ys.length →
    ((xs.zip ys).map (fun p => f p.1)).sum = (xs.map f).sum
  | [], _, _ => by simp
  | x :: xs, [], h => by simp at h
  | x :: xs, y :: ys, h => by
    simp only [List.zip_cons_cons, List.map_cons, List.sum_cons]
    rw [zip_map_fst_sum f xs ys (by simpa using h)]

theorem zip_map_snd_sum (f : ℚ → ℚ) : ∀ (xs ys : List ℚ), ys.length ≤ xs.length →
    ((xs.zip ys).map (fun p => f p.2)).sum = (ys.map f).sum
  | _, [], _ => by simp
  | [], y :: ys, h => by simp at h
  | x :: xs, y :: ys, h => by
    simp only [List.zip_cons_cons, List.map_cons, List.sum_cons]
    rw [zip_map_snd_sum f xs ys (by simpa using h)]

theorem devSq_congr_len (ys : List ℚ) (n : ℚ) (h : (ys.length : ℚ) = n) :
    (ys.map (fun y => (y - ys.sum / n) ^ 2)).sum = devSq ys := by
  rw [← h]
  rfl

/-- Cauchy–Schwarz for the centred series of `_pearson_corr`: the square of
the numerator is bounded by the product of the squared-deviation sums. -/
theorem pearson_num_sq_le (xs ys : List ℚ) (hlen : xs.length = ys.length) :
    (((xs.zip ys).map (fun p => (p.1 - xs.sum / (xs.length : ℚ))
        * (p.2 - ys.sum / (xs.length : ℚ)))).sum) ^ 2
      ≤ devSq xs * devSq ys := by
  have h := list_cauchy_schwarz ((xs.zip ys).map
    (fun p => (p.1 - xs.sum / (xs.length : ℚ), p.2 - ys.sum / (xs.length : ℚ))))
  simp only [List.map_map, Function.comp_def] at h
  have h1 : ((xs.zip ys).map (fun p => (p.1 - xs.sum / (xs.length : ℚ)) ^ 2)).sum
      = devSq xs := by
    rw [zip_map_fst_sum (fun x => (x - xs.sum / (xs.length : ℚ)) ^ 2) xs ys
      (le_of_eq hlen)]
    rfl
  have h2 : ((xs.zip ys).map (fun p => (p.2 - ys.sum / (xs.length : ℚ)) ^ 2)).sum
      = devSq ys := by
    rw [zip_map_snd_sum (fun y => (y - ys.sum / (xs.length : ℚ)) ^ 2) xs ys
      (le_of_eq hlen.symm)]
    exact devSq_congr_len ys _ (by rw [hlen])
  rw [h1, h2] at h
  exact h

/-- C5: with equal lengths of at least 4 and neither series constant, the
correlation is defined and lies in [-1, 1]; with unequal lengths, fewer than
4 points, or a zero-variance series it is `None`. -/
theorem pearson_corr_c5 :
    (∀ xs ys : List ℚ, xs.length = ys.length → 4 ≤ xs.length →
      ¬ isConst xs → ¬ isConst ys →
      ∃ r : ℝ, pearson_corr xs ys = some r ∧ -1 ≤ r ∧ r ≤ 1)
    ∧ (∀ xs ys : List ℚ, xs.length ≠ ys.length → pearson_corr xs ys = none)
    ∧ (∀ xs ys : List ℚ, xs.length < 4 → pearson_corr xs ys = none)
    ∧ (∀ xs ys : List ℚ, xs.length = ys.length →
        devSq xs = 0 ∨ devSq ys = 0 → pearson_corr xs ys = none) := by
  have hguard : ∀ xs ys : List ℚ, xs.length = ys.length → 4 ≤ xs.length →
      pearson_corr xs ys =
        if Real.sqrt (devSq xs) = 0 ∨ Real.sqrt (devSq ys) = 0 then none
        else some ((((xs.zip ys).map (fun p => (p.1 - xs.sum / (xs.length : ℚ))
            * (p.2 - ys.sum / (xs.length : ℚ)))).sum : ℝ)
          / (Real.sqrt (devSq xs) * Real.sqrt (devSq ys))) := by
    intro xs ys hlen h4
    unfold pearson_corr
    rw [if_neg (by push_neg; exact ⟨hlen, by omega⟩)]
    dsimp only
    rw [devSq_congr_len ys ((xs.length : ℚ)) (by rw [hlen])]
    rfl
  refine ⟨?_, ?_, ?_, ?_⟩
  · intro xs ys hlen h4 hcx hcy
    have hsx : 0 < devSq xs := devSq_pos xs hcx
    have hsy : 0 < devSq ys := devSq_pos ys hcy
    have hsxR : (0 : ℝ) < Real.sqrt (devSq xs) :=
      Real.sqrt_pos.mpr (by exact_mod_cast hsx)
    have hsyR : (0 : ℝ) < Real.sqrt (devSq ys) :=
      Real.sqrt_pos.mpr (by exact_mod_cast hsy)
    rw [hguard xs ys hlen h4,
      if_neg (by push_neg; exact ⟨ne_of_gt hsxR, ne_of_gt hsyR⟩)]
    set numQ : ℚ := ((xs.zip ys).map (fun p => (p.1 - xs.sum / (xs.length : ℚ))
      * (p.2 - ys.sum / (xs.length : ℚ)))).sum with hnum
    refine ⟨_, rfl, ?_⟩
    have hcs : (numQ : ℝ) ^ 2 ≤ (devSq xs : ℝ) * (devSq ys : ℝ) := by
      have := pearson_num_sq_le xs ys hlen
      exact_mod_cast this
    have habs : |(numQ : ℝ)| ≤ Real.sqrt (devSq xs) * Real.sqrt (devSq ys) := by
      have h1 : |(numQ : ℝ)| = Real.sqrt ((numQ : ℝ) ^ 2) :=
        (Real.sqrt_sq_eq_abs _).symm
      rw [h1, ← Real.sqrt_mul (by positivity) ((devSq ys : ℝ))]
      exact Real.sqrt_le_sqrt hcs
    have hpos : (0 : ℝ) < Real.sqrt (devSq xs) * Real.sqrt (devSq ys) :=
      mul_pos hsxR hsyR
    have habs2 : |((numQ : ℝ)) / (Real.sqrt (devSq xs) * Real.sqrt (devSq ys))| ≤ 1 := by
      rw [abs_div, abs_of_pos hpos]
      exact (div_le_one hpos).mpr habs
    exact abs_le.mp habs2
  · intro xs ys h
    unfold pearson_corr
    rw [if_pos (Or.inl h)]
  · intro xs ys h
    unfold pearson_corr
    rw [if_pos (Or.inr h)]
  · intro xs ys hlen hzero
    by_cases h4 : xs.length < 4
    · unfold pearson_corr
      rw [if_pos (Or.inr h4)]
    · rw [hguard xs ys hlen (by omega)]
      rw [if_pos ?_]
      rcases hzero with h | h
      · exact Or.inl (by rw [h, Rat.cast_zero, Real.sqrt_zero])
      · exact Or.inr (by rw [h, Rat.cast_zero, Real.sqrt_zero])

/-- Witness for C5 at concrete series: [1,2,3,4] against [2,1,4,3] for the
in-range case, and a short/constant pair for the undefined cases. -/
theorem pearson_corr_c5_witness :
    (∃ r : ℝ, pearson_corr [1,2,3,4] [2,1,4,3] = some r ∧ -1 ≤ r ∧ r ≤ 1)
    ∧ pearson_corr [1,2] [1,2,3] = none
    ∧ pearson_corr [1,2] [3,4] = none
    ∧ pearson_corr [5,5,5,5] [2,1,4,3] = none := by
  refine ⟨pearson_corr_c5.1 [1,2,3,4] [2,1,4,3] (by decide) (by decide)
      (by decide) (by decide),
    pearson_corr_c5.2.1 [1,2] [1,2,3] (by decide),
    pearson_corr_c5.2.2.1 [1,2] [3,4] (by decide),
    pearson_corr_c5.2.2.2 [5,5,5,5] [2,1,4,3] (by decide) (Or.inl ?_)⟩
  show ([(5:ℚ),5,5,5].map (fun x => (x - [(5:ℚ),5,5,5].sum / (([(5:ℚ),5,5,5].length : ℕ) : ℚ)) ^ 2)).sum = 0
  norm_num

/-- Witness helper for C9 (store outcome at the concrete malformed date). -/
theorem upsert_log_shape_only_c9_witness :
    (upsert_log [] c8payload).1 = .error ⟨422, dateFormatMsg⟩ :=
  (upsert_log_shape_only_c9.1 [] c8payload).mpr (by decide)

/-! ## Claim C2 -/

theorem chListIsPre_refl_append : ∀ (nd rest : List Char),
    chListIsPre nd (nd ++ rest) = true
  | [], _ => rfl
  | c :: cs, rest => by
    simp only [List.cons_append, chListIsPre]
    simp [chListIsPre_refl_append cs rest]

theorem chListContains_prefix (nd b : List Char) :
    chListContains nd (nd ++ b) = true := by
  cases hnb : nd ++ b with
  | nil =>
    have : nd = [] := by
      cases nd
      · rfl
      · simp at hnb
    simp [chListContains, this]
  | cons c cs =>
    rw [chListContains, ← hnb, chListIsPre_refl_append]
    simp

theorem chListContains_append_left (a : List Char) {nd rest : List Char}
    (h : chListContains nd rest = true) :
    chListContains nd (a ++ rest) = true := by
  induction a with
  | nil => simpa using h
  | cons c cs ih =>
    simp only [List.cons_append, chListContains, List.append_eq, ih, Bool.or_true]

theorem fallback_report_contains (st : StatsOut) (focus : String) :
    strContains (snix_fallback_report st focus) (ratStr st.base.avg_sleep) = true
    ∧ strContains (snix_fallback_report st focus) (ratStr st.base.avg_anxiety) = true
    ∧ strContains (snix_fallback_report st focus)
        (toString st.base.high_anxiety_days) = true := by
  unfold snix_fallback_report strContains
  refine ⟨?_, ?_, ?_⟩ <;>
  · simp only [String.data_append, List.append_assoc]
    repeat
      first
      | exact chListContains_prefix _ _
      | apply chListContains_append_left

/-- Peeling an `Except` known to be successful into an `ok` of its value. -/
theorem except_eq_ok_get {ε α : Type} (e : Except ε α) (h : e.toOption.isSome) :
    e = .ok (e.toOption.get h) := by
  cases e with
  | ok a => rfl
  | error err => simp [Except.toOption] at h

/-- C2: if the gateway call fails and the prep phase and cache lookup put the
handler on the LLM path, then a quota-classified error (429 marker or
resource-exhaustion marker in the detail) yields a 200 result with
`ok = true`, `model = "offline-fallback"` and a report containing the average
sleep, the average anxiety and the high-anxiety-day count of the same
statistics record a successful call would have used; any other gateway error
propagates as the request's failure. -/
theorem snix_coach_quota_fallback_c2 (env : CoachEnv) (cache : SnixCache)
    (now : ℚ) (p : SnixCoachIn) (e : HErr) (ctx : CoachCtx)
    (hfail : (gemini_generate env.retries env.apiKey env.model env.net).result
      = .error e)
    (hprep : coachPrep env p = .ok ctx)
    (hmiss : (cache_get env.ttl cache now ctx.cache_key).1 = none) :
    (isQuotaDetail e.detail = true →
      (snix_coach env cache now p).result = .ok (snixFallbackOut env ctx)
      ∧ (snixFallbackOut env ctx).ok = true
      ∧ (snixFallbackOut env ctx).model = "offline-fallback"
      ∧ strContains (snixFallbackOut env ctx).report
          (ratStr ctx.stats.avg_sleep) = true
      ∧ strContains (snixFallbackOut env ctx).report
          (ratStr ctx.stats.avg_anxiety) = true
      ∧ strContains (snixFallbackOut env ctx).report
          (toString ctx.stats.high_anxiety_days) = true)
    ∧ (isQuotaDetail e.detail = false →
      (snix_coach env cache now p).result = .error e) := by
  have hphase : snixLlmPhase env ctx
      (gemini_generate env.retries env.apiKey env.model env.net)
      = if isQuotaDetail e.detail then .ok (snixFallbackOut env ctx)
        else .error e := by
    unfold snixLlmPhase
    rw [hfail]
  constructor
  · intro hq
    rw [hq, if_pos rfl] at hphase
    refine ⟨by simp [snix_coach, hprep, hmiss, hphase], rfl, rfl, ?_, ?_, ?_⟩
    · exact (fallback_report_contains (statsOutOf env ctx LlmMeta.quotaError) ctx.focus).1
    · exact (fallback_report_contains (statsOutOf env ctx LlmMeta.quotaError) ctx.focus).2.1
    · exact (fallback_report_contains (statsOutOf env ctx LlmMeta.quotaError) ctx.focus).2.2
  · intro hq
    rw [hq] at hphase
    simp only [Bool.false_eq_true, if_false] at hphase
    simp [snix_coach, hprep, hmiss, hphase]

/-- Environment of the C2 witness: three good logs, retries exhausted at the
first attempt, the network answering 429. -/
def c2env : CoachEnv :=
  { goals := DEFAULT_GOALS
  , logs := [exLog "2025-03-01" 7 4 false, exLog "2025-03-02" 6 5 false,
      exLog "2025-03-03" 5 8 false]
  , today := dateOrdinal 2025 3 10
  , ttl := 900
  , retries := 0
  , apiKey := "k"
  , model := "gemini-2.5-flash"
  , net := fun _ => .httpError 429 "quota" }

/-- Witness for C2: on `c2env` the handler returns the offline fallback. -/
theorem snix_coach_quota_fallback_c2_witness :
    (snix_coach c2env (fun _ => none) 0 {}).result
      = .ok (snixFallbackOut c2env ((coachPrep c2env {}).toOption.get (by decide)))
    ∧ (snixFallbackOut c2env
        ((coachPrep c2env {}).toOption.get (by decide))).model = "offline-fallback" :=
  let h := snix_coach_quota_fallback_c2 c2env (fun _ => none) 0 {}
    ⟨502, "Gemini HTTPError: 429 quota"⟩
    ((coachPrep c2env {}).toOption.get (by decide))
    (by decide) (except_eq_ok_get _ (by decide)) rfl
  ⟨(h.1 (by decide)).1, (h.1 (by decide)).2.2.1⟩

/-! ## Claim C6 -/

theorem cache_get_set_fresh (ttl : ℚ) (c : SnixCache) (t1 t2 : ℚ) (k : String)
    (v : SnixCoachOut) (ht : ¬ ttl < t2 - t1) :
    cache_get ttl (cache_set c t1 k v) t2 k = (some v, cache_set c t1 k v) := by
  unfold cache_get cache_set
  simp [ht]

/-- C6: a second identical request over the unchanged environment, made
within the TTL of the cache entry the first (LLM-reaching, successful)
request stored, returns the exact same result from the cache with zero LLM
attempts; and on lookup, an entry older than the TTL is reported absent and
evicted. -/
theorem snix_coach_cache_c6 (env : CoachEnv) (c0 : SnixCache) (t1 t2 : ℚ)
    (p : SnixCoachIn)
    (h1 : (snix_coach env c0 t1 p).result.isOk = true)
    (h2 : 0 < (snix_coach env c0 t1 p).llm_calls)
    (ht : ¬ env.ttl < t2 - t1) :
    ((snix_coach env (snix_coach env c0 t1 p).cache t2 p).result
        = (snix_coach env c0 t1 p).result
      ∧ (snix_coach env (snix_coach env c0 t1 p).cache t2 p).llm_calls = 0)
    ∧ (∀ (c : SnixCache) (k : String) (ts : ℚ) (v : SnixCoachOut) (now : ℚ),
        c k = some (ts, v) → env.ttl < now - ts →
        (cache_get env.ttl c now k).1 = none
          ∧ (cache_get env.ttl c now k).2 k = none) := by
  constructor
  · cases hprep : coachPrep env p with
    | error e =>
      exfalso
      simp [snix_coach, hprep, Except.isOk, Except.toBool] at h1
    | ok ctx =>
      cases hlook : (cache_get env.ttl c0 t1 ctx.cache_key).1 with
      | some v =>
        exfalso
        have : (snix_coach env c0 t1 p).llm_calls = 0 := by
          simp [snix_coach, hprep, hlook]
        omega
      | none =>
        cases hphase : snixLlmPhase env ctx
            (gemini_generate env.retries env.apiKey env.model env.net) with
        | error e =>
          exfalso
          have : (snix_coach env c0 t1 p).result = .error e := by
            simp [snix_coach, hprep, hlook, hphase]
          rw [this] at h1
          simp [Except.isOk, Except.toBool] at h1
        | ok res =>
          have hres : (snix_coach env c0 t1 p).result = .ok res := by
            simp [snix_coach, hprep, hlook, hphase]
          have hcache : (snix_coach env c0 t1 p).cache
              = cache_set (cache_get env.ttl c0 t1 ctx.cache_key).2 t1
                  ctx.cache_key res := by
            simp [snix_coach, hprep, hlook, hphase]
          rw [hres, hcache]
          constructor
          · simp [snix_coach, hprep, cache_get_set_fresh env.ttl _ t1 t2 _ res ht]
          · simp [snix_coach, hprep, cache_get_set_fresh env.ttl _ t1 t2 _ res ht]
  · intro c k ts v now hck hold
    unfold cache_get
    rw [hck]
    dsimp only
    rw [if_pos hold]
    exact ⟨rfl, by simp⟩

/-- Environment of the C6 witness: three good logs and a healthy network. -/
def c6env : CoachEnv :=
  { goals := DEFAULT_GOALS
  , logs := [exLog "2025-03-01" 7 4 false, exLog "2025-03-02" 6 5 false,
      exLog "2025-03-03" 5 8 false]
  , today := dateOrdinal 2025 3 10
  , ttl := 900
  , retries := 3
  , apiKey := "k"
  , model := "gemini-2.5-flash"
  , net := fun _ => .ok ⟨"Tudo certo.", none, none, none, ""⟩ }

/-- Witness for C6: second identical request 100 seconds later is served
from the cache with no LLM attempt. -/
theorem snix_coach_cache_c6_witness :
    (snix_coach c6env (snix_coach c6env (fun _ => none) 0 {}).cache 100 {}).result
        = (snix_coach c6env (fun _ => none) 0 {}).result
      ∧ (snix_coach c6env (snix_coach c6env (fun _ => none) 0 {}).cache 100 {}).llm_calls
        = 0 :=
  (snix_coach_cache_c6 c6env (fun _ => none) 0 100 {} (by decide) (by decide)
    (by norm_num [c6env])).1
